import Mathlib

set_option maxHeartbeats 1000000

/-!
Verification of the remediation-dispatcher scripts of this repository.

The development shallowly embeds the Python fragments the claims are about:

* `SecOps` — "AWS Automated Security Operations Center/scripts/LambdaFunction1.py":
  the remediation dispatcher (`lambda_handler`) and the three strategies
  (`remediate_security_group`, `remediate_s3_bucket`, `quarantine_ec2_instance`)
  plus `send_notification`.
* `Harden` — "AWS Security Hardening & CIS Benchmarking/scripts/LambdaRemFunction.py":
  the bucket-name extraction (normalization) part of its `lambda_handler`.
* `Reporting` — "AWS Automated Compliance Reporting/scripts/AdvLab6_LambdaCode.py":
  the compliance-state extraction part of its `lambda_handler`.

Inbound events are arbitrary nested mappings; they are embedded as the
JSON-like type `Val`.  The cloud control plane (boto3 calls) is embedded as an
explicit environment `SecOps.Env` of oracles returning `Except`, and every
embedded function additionally returns the ordered trace of control-plane
calls it issued, so that claims about side effects become claims about the
trace.  Exceptions are embedded as `Except` error values; the `try/except`
blocks of the source become the corresponding short-circuiting matches.
-/

/-- Python-like JSON values: the nested mappings the Lambda handlers receive.
`null` is Python None; `obj` is a dict (ordered key/value pairs, keys unique);
`arr` is a list; `str` a string.  Numbers and booleans do not occur on the
embedded code paths, so they are omitted. -/
inductive Val : Type where
  | null : Val
  | str : String → Val
  | obj : List (String × Val) → Val
  | arr : List Val → Val

/-- Python truthiness, as used by `if not bucket:` and by `a or b`. -/
def Val.truthy : Val → Bool
  | .null => false
  | .str s => !(s == "")
  | .obj fs => !fs.isEmpty
  | .arr xs => !xs.isEmpty

/-- Python `x == "k"` for values of our model: equal strings compare equal,
every other value compares unequal to a string. -/
def Val.eqStr : Val → String → Bool
  | .str s, k => s == k
  | _, _ => false

/-- Python `str(x)` as used inside f-strings.  The rendering of containers is
abstracted (the embedded claims only ever format strings and None). -/
def Val.pyStr : Val → String
  | .null => "None"
  | .str s => s
  | .obj _ => "<dict>"
  | .arr _ => "<list>"

/-- The Python exceptions raised by the embedded fragments. -/
inductive PyErr : Type where
  | attributeError (m : String)
  | typeError (m : String)
  | keyError (k : String)
  | indexError (m : String)
  | valueError (m : String)
deriving DecidableEq

/-- Rendering of an exception, standing for Python str(e). -/
def PyErr.msg : PyErr → String
  | .attributeError m => m
  | .typeError m => m
  | .keyError k => k
  | .indexError m => m
  | .valueError m => m

/-- Python `x.get(k, d)`: dict lookup with a default; AttributeError on
anything that is not a dict. -/
def Val.getattr : Val → String → Val → Except PyErr Val
  | .obj fs, k, d => .ok ((fs.lookup k).getD d)
  | .null, _, _ => .error (.attributeError "NoneType object has no attribute get")
  | .str _, _, _ => .error (.attributeError "str object has no attribute get")
  | .arr _, _, _ => .error (.attributeError "list object has no attribute get")

/-- Whether the character list `p` occurs at the start of `l`. -/
def charsHavePre : List Char → List Char → Bool
  | [], _ => true
  | _ :: _, [] => false
  | a :: as, b :: bs => a == b && charsHavePre as bs

/-- Whether the character list `p` occurs anywhere inside `l`. -/
def charsHaveSub (p : List Char) : List Char → Bool
  | [] => charsHavePre p []
  | b :: bs => charsHavePre p (b :: bs) || charsHaveSub p bs

/-- Python `k in x`: key test on dicts, element test on lists, substring test
on strings, TypeError on None. -/
def Val.hasItem : Val → String → Except PyErr Bool
  | .obj fs, k => .ok (fs.any (fun p => p.1 == k))
  | .arr xs, k => .ok (xs.any (fun v => v.eqStr k))
  | .str s, k => .ok (charsHaveSub k.toList s.toList)
  | .null, _ => .error (.typeError "argument of type NoneType is not iterable")

/-- Python `x[k]` with a string key. -/
def Val.index : Val → String → Except PyErr Val
  | .obj fs, k =>
    match fs.lookup k with
    | some v => .ok v
    | Option.none => .error (.keyError k)
  | .arr _, _ => .error (.typeError "list indices must be integers")
  | .str _, _ => .error (.typeError "string indices must be integers")
  | .null, _ => .error (.typeError "NoneType object is not subscriptable")

/-- Python `x[i]` with an integer key. -/
def Val.indexNat : Val → Nat → Except PyErr Val
  | .arr xs, i =>
    match xs[i]? with
    | some v => .ok v
    | Option.none => .error (.indexError "list index out of range")
  | .obj _, i => .error (.keyError (toString i))
  | .str s, i =>
    match s.toList[i]? with
    | some c => .ok (.str (String.mk [c]))
    | Option.none => .error (.indexError "string index out of range")
  | .null, _ => .error (.typeError "NoneType object is not subscriptable")

/-- Python `len(x)`. -/
def Val.pyLen : Val → Except PyErr Nat
  | .arr xs => .ok xs.length
  | .obj fs => .ok fs.length
  | .str s => .ok s.length
  | .null => .error (.typeError "object of type NoneType has no len")

/-- Plain mapping field access, used only by the claim-modelled definitions
(the claims speak declaratively about present fields). -/
def Val.pathGet : Val → String → Option Val
  | .obj fs, k => fs.lookup k
  | _, _ => Option.none

/-- Plain list element access, used only by the claim-modelled definitions. -/
def Val.arrGet : Val → Nat → Option Val
  | .arr xs, i => xs[i]?
  | _, _ => Option.none

/-- json.dumps as applied by the handler to its string payloads (escaping is
not modelled; the embedded payloads contain no characters needing it). -/
def jsonDumps : Val → String
  | .str s => "\"" ++ s ++ "\""
  | v => v.pyStr

namespace SecOps

/-- One entry of IpRanges of an ingress rule: `ip_range.get(CidrIp)` may be
absent, hence an Option. -/
structure IpRange where
  cidrIp : Option String
deriving DecidableEq

/-- One ingress rule of `sg.get(IpPermissions, [])`.  Besides its IpRanges a
real rule carries further fields (ports and so on); `fromPort` keeps enough of
them for distinct rules to be distinct values. -/
structure Rule where
  fromPort : Option Nat
  ipRanges : List IpRange
deriving DecidableEq

/-- A control-plane call issued by the dispatcher, in the order issued.
`snsPublish` is the alerting-channel call; every other constructor is a
resource-control-plane operation. -/
inductive Op : Type where
  | describeSecurityGroups (g : Val)
  | revokeIngress (g : Val) (r : Rule)
  | putBucketEncryption (b : Val)
  | putPublicAccessBlock (b : Val)
  | createSecurityGroup (name : String)
  | modifyInstanceAttribute (i : Val) (g : String)
  | createTags (i : Val)
  | snsPublish

/-- Is this call the alerting-channel publish? -/
def Op.isSns : Op → Bool
  | .snsPublish => true
  | _ => false

/-- Is this call a resource-control-plane operation (anything except the
alerting-channel publish)? -/
def Op.isResource : Op → Bool
  | .snsPublish => false
  | _ => true

/-- The behaviour of the external control plane during one event: what each
boto3 call returns, error strings standing for raised client exceptions.
`describeSecurityGroups` yields the ingress rule set of the group. -/
structure Env where
  describeSecurityGroups : Val → Except String (List Rule)
  revokeSecurityGroupIngress : Val → Rule → Except String Unit
  putBucketEncryption : Val → Except String Unit
  putPublicAccessBlock : Val → Except String Unit
  modifyInstanceAttribute : Val → String → Except String Unit
  createTags : Val → Except String Unit
  snsPublish : Except String Unit

/-- What one embedded strategy invocation produced: whether its try block ran
to completion, the control-plane calls issued, and the messages written by
logger.error. -/
structure StratOut where
  completed : Bool
  ops : List Op
  logs : List String

/-- Does this IpRanges entry carry the unrestricted CIDR?  Embeds the test
`ip_range.get(CidrIp) == 0.0.0.0/0`. -/
def openRange (ir : IpRange) : Bool := ir.cidrIp == some "0.0.0.0/0"

/-- Does the rule contain at least one unrestricted range? -/
def ruleOpen (r : Rule) : Bool := r.ipRanges.any openRange

/-- The nested loop of remediate_security_group, flattened: one planned
revoke call per matching ip_range of each rule, in loop order (the call always
revokes the whole enclosing rule, as in the source). -/
def plannedRevokes (rules : List Rule) : List Rule :=
  rules.flatMap (fun r => (r.ipRanges.filter openRange).map (fun _ => r))

/-- Issue the planned revoke calls in order; the first client exception jumps
to the except block of remediate_security_group, so later calls are not
attempted. -/
def revokeLoop (env : Env) (g : Val) : List Rule → StratOut
  | [] => { completed := true, ops := [], logs := [] }
  | r :: rs =>
    match env.revokeSecurityGroupIngress g r with
    | .error e =>
      { completed := false, ops := [Op.revokeIngress g r],
        logs := ["Failed to remediate security group " ++ g.pyStr ++ ": " ++ e] }
    | .ok _ =>
      let rest := revokeLoop env g rs
      { completed := rest.completed, ops := Op.revokeIngress g r :: rest.ops,
        logs := rest.logs }

/-- remediate_security_group: describe the group, then revoke every rule once
per unrestricted ip_range; the single try/except catches any client
exception and only logs it. -/
def remediate_security_group (env : Env) (g : Val) : StratOut :=
  match env.describeSecurityGroups g with
  | .error e =>
    { completed := false, ops := [Op.describeSecurityGroups g],
      logs := ["Failed to remediate security group " ++ g.pyStr ++ ": " ++ e] }
  | .ok rules =>
    let rest := revokeLoop env g (plannedRevokes rules)
    { completed := rest.completed,
      ops := Op.describeSecurityGroups g :: rest.ops, logs := rest.logs }

/-- remediate_s3_bucket: put_bucket_encryption, then put_public_access_block,
inside one try block — an exception from the first call skips the second and
is only logged. -/
def remediate_s3_bucket (env : Env) (b : Val) : StratOut :=
  match env.putBucketEncryption b with
  | .error e =>
    { completed := false, ops := [Op.putBucketEncryption b],
      logs := ["Failed to remediate S3 bucket " ++ b.pyStr ++ ": " ++ e] }
  | .ok _ =>
    match env.putPublicAccessBlock b with
    | .error e =>
      { completed := false,
        ops := [Op.putBucketEncryption b, Op.putPublicAccessBlock b],
        logs := ["Failed to remediate S3 bucket " ++ b.pyStr ++ ": " ++ e] }
    | .ok _ =>
      { completed := true,
        ops := [Op.putBucketEncryption b, Op.putPublicAccessBlock b], logs := [] }

/-- Output of the quarantine strategy; `groupNames` is the set of security
group names existing at the control plane after the invocation (the state
threaded between invocations). -/
structure QuarOut where
  completed : Bool
  ops : List Op
  logs : List String
  groupNames : List String

/-- The deterministic name the source gives the quarantine group:
GroupName = quarantine-{instance_id}. -/
def quarantineName (i : Val) : String := "quarantine-" ++ i.pyStr

/-- quarantine_ec2_instance over the control-plane state `groupNames`.
create_security_group is executed with the control-plane semantics of the
provider: a duplicate group name is rejected (InvalidGroup.Duplicate) and on
success the created group is identified by its name.  The body follows the
source: create, modify_instance_attribute, create_tags, all inside one
try/except that only logs a failure. -/
def quarantine_ec2_instance (env : Env) (groupNames : List String) (i : Val) :
    QuarOut :=
  if groupNames.contains (quarantineName i) then
    { completed := false, ops := [Op.createSecurityGroup (quarantineName i)],
      logs := ["Failed to quarantine EC2 instance " ++ i.pyStr ++
               ": InvalidGroup.Duplicate"],
      groupNames := groupNames }
  else
    match env.modifyInstanceAttribute i (quarantineName i) with
    | .error e =>
      { completed := false,
        ops := [Op.createSecurityGroup (quarantineName i),
                Op.modifyInstanceAttribute i (quarantineName i)],
        logs := ["Failed to quarantine EC2 instance " ++ i.pyStr ++ ": " ++ e],
        groupNames := groupNames ++ [quarantineName i] }
    | .ok _ =>
      match env.createTags i with
      | .error e =>
        { completed := false,
          ops := [Op.createSecurityGroup (quarantineName i),
                  Op.modifyInstanceAttribute i (quarantineName i),
                  Op.createTags i],
          logs := ["Failed to quarantine EC2 instance " ++ i.pyStr ++ ": " ++ e],
          groupNames := groupNames ++ [quarantineName i] }
      | .ok _ =>
        { completed := true,
          ops := [Op.createSecurityGroup (quarantineName i),
                  Op.modifyInstanceAttribute i (quarantineName i),
                  Op.createTags i],
          logs := [], groupNames := groupNames ++ [quarantineName i] }

/-- send_notification: one sns.publish, its own try/except only logging a
publish failure. -/
def send_notification (env : Env) : StratOut :=
  match env.snsPublish with
  | .error e =>
    { completed := true, ops := [Op.snsPublish],
      logs := ["Failed to send notification: " ++ e] }
  | .ok _ => { completed := true, ops := [Op.snsPublish], logs := [] }

/-- The fields lambda_handler extracts from the event before dispatching. -/
structure Info where
  resourceType : Val
  resourceId : Val
  complianceType : Val

/-- Lines 15 to 19 of LambdaFunction1.py: detail, configurationItem,
resourceType, resourceId, newEvaluationResult.complianceType, each read with
.get and a default; any AttributeError propagates to the outer except. -/
def extractInfo (event : Val) : Except PyErr Info :=
  match event.getattr "detail" (Val.obj []) with
  | .error e => .error e
  | .ok detail =>
    match detail.getattr "configurationItem" (Val.obj []) with
    | .error e => .error e
    | .ok ci =>
      match ci.getattr "resourceType" Val.null with
      | .error e => .error e
      | .ok rt =>
        match ci.getattr "resourceId" Val.null with
        | .error e => .error e
        | .ok rid =>
          match detail.getattr "newEvaluationResult" (Val.obj []) with
          | .error e => .error e
          | .ok ner =>
            match ner.getattr "complianceType" Val.null with
            | .error e => .error e
            | .ok ct =>
              .ok { resourceType := rt, resourceId := rid, complianceType := ct }

/-- The if/elif dispatch of lambda_handler: a strategy runs only when
compliance_type == NON_COMPLIANT and the resource type is one of the three
known strings.  Returns the strategy output and the control-plane state. -/
def dispatch (env : Env) (groupNames : List String) (info : Info) :
    StratOut × List String :=
  if info.complianceType.eqStr "NON_COMPLIANT" then
    if info.resourceType.eqStr "AWS::EC2::SecurityGroup" then
      (remediate_security_group env info.resourceId, groupNames)
    else if info.resourceType.eqStr "AWS::S3::Bucket" then
      (remediate_s3_bucket env info.resourceId, groupNames)
    else if info.resourceType.eqStr "AWS::EC2::Instance" then
      let q := quarantine_ec2_instance env groupNames info.resourceId
      ({ completed := q.completed, ops := q.ops, logs := q.logs }, q.groupNames)
    else ({ completed := true, ops := [], logs := [] }, groupNames)
  else ({ completed := true, ops := [], logs := [] }, groupNames)

/-- The dict returned by lambda_handler. -/
structure HandlerResult where
  statusCode : Nat
  body : String
deriving DecidableEq

/-- One full run of lambda_handler: its return value, the trace of
control-plane calls, the logger.error lines, and the control-plane state. -/
structure RunOut where
  result : HandlerResult
  ops : List Op
  logs : List String
  groupNames : List String

/-- lambda_handler of LambdaFunction1.py: extract, dispatch, send one
notification, return 200; an exception during extraction reaches the outer
except, which logs it and returns 500 (no notification is sent). -/
def lambda_handler (env : Env) (groupNames : List String) (event : Val) :
    RunOut :=
  match extractInfo event with
  | .error e =>
    { result := { statusCode := 500,
                  body := jsonDumps (Val.str ("Error: " ++ e.msg)) },
      ops := [], logs := ["Error in auto-remediation: " ++ e.msg],
      groupNames := groupNames }
  | .ok info =>
    let dis := dispatch env groupNames info
    let notif := send_notification env
    { result := { statusCode := 200,
                  body := jsonDumps (Val.str
                    ("Processed " ++ info.resourceType.pyStr ++ " remediation")) },
      ops := dis.1.ops ++ notif.ops,
      logs := dis.1.logs ++ notif.logs,
      groupNames := dis.2 }

/-- The rules revoked by a trace, in order (one entry per revoke call). -/
def revokedOf (ops : List Op) : List Rule :=
  ops.filterMap (fun o =>
    match o with
    | .revokeIngress _ r => some r
    | _ => Option.none)

/-- A control plane on which every call succeeds and the examined group has
no ingress rules. -/
def envOk : Env :=
  { describeSecurityGroups := fun _ => .ok []
    revokeSecurityGroupIngress := fun _ _ => .ok ()
    putBucketEncryption := fun _ => .ok ()
    putPublicAccessBlock := fun _ => .ok ()
    modifyInstanceAttribute := fun _ _ => .ok ()
    createTags := fun _ => .ok ()
    snsPublish := .ok () }

/-- SSH open to the world: matches the unrestricted CIDR. -/
def ruleSSH : Rule := { fromPort := some 22, ipRanges := [{ cidrIp := some "0.0.0.0/0" }] }

/-- HTTP restricted to 10.0.0.0/8: does not match. -/
def rulePriv : Rule := { fromPort := some 80, ipRanges := [{ cidrIp := some "10.0.0.0/8" }] }

/-- HTTPS open to the world: matches the unrestricted CIDR. -/
def ruleHTTPS : Rule := { fromPort := some 443, ipRanges := [{ cidrIp := some "0.0.0.0/0" }] }

/-- Control plane for the security-group example of the claim: the group has
the three rules above and every call succeeds. -/
def envC2 : Env :=
  { envOk with describeSecurityGroups := fun _ => .ok [ruleSSH, rulePriv, ruleHTTPS] }

/-- Control plane on which put_bucket_encryption is denied and everything
else succeeds. -/
def envC3 : Env :=
  { envOk with putBucketEncryption := fun _ => .error "AccessDenied" }

/-- Control plane on which describe_security_groups is denied and everything
else succeeds. -/
def envC4 : Env :=
  { envOk with describeSecurityGroups := fun _ => .error "AccessDenied" }

/-- A NON_COMPLIANT security-group event in the structured-finding shape. -/
def evSG : Val :=
  Val.obj [("detail", Val.obj
    [("configurationItem", Val.obj
       [("resourceType", Val.str "AWS::EC2::SecurityGroup"),
        ("resourceId", Val.str "sg-1")]),
     ("newEvaluationResult", Val.obj
       [("complianceType", Val.str "NON_COMPLIANT")])])]

end SecOps

namespace Harden

/-- The ValueError text of LambdaRemFunction.py (the list of expected formats
in the original message is abbreviated; no embedded claim reads it). -/
def missingBucketMsg : String := "Could not find bucket name in event"

/-- The manual/test branch: elif bucket in event: bucket = event[bucket];
otherwise the variable keeps None. -/
def shapeManual (event : Val) : Except PyErr Val :=
  match event.hasItem "bucket" with
  | .error e => .error e
  | .ok true => event.index "bucket"
  | .ok false => .ok Val.null

/-- The direct S3 branch: elif Records in event and len(event[Records]) > 0:
bucket = event[Records][0][s3][bucket][name]; on a false guard fall through
to the manual branch. -/
def shapeRecords (event : Val) : Except PyErr Val :=
  match event.hasItem "Records" with
  | .error e => .error e
  | .ok true =>
    match event.index "Records" with
    | .error e => .error e
    | .ok recs =>
      match recs.pyLen with
      | .error e => .error e
      | .ok n =>
        if n > 0 then
          match recs.indexNat 0 with
          | .error e => .error e
          | .ok r0 =>
            match r0.index "s3" with
            | .error e => .error e
            | .ok s3 =>
              match s3.index "bucket" with
              | .error e => .error e
              | .ok bk => bk.index "name"
        else shapeManual event
  | .ok false => shapeManual event

/-- The EventBridge branch: if detail in event and resourceId in
event[detail]: bucket = event[detail][resourceId]; on a false guard fall
through to the Records branch. -/
def bucketCandidate (event : Val) : Except PyErr Val :=
  match event.hasItem "detail" with
  | .error e => .error e
  | .ok true =>
    match event.index "detail" with
    | .error e => .error e
    | .ok d =>
      match d.hasItem "resourceId" with
      | .error e => .error e
      | .ok true => d.index "resourceId"
      | .ok false => shapeRecords event
  | .ok false => shapeRecords event

/-- Lines 13 to 31 of LambdaRemFunction.py: run the if/elif chain, then
`if not bucket: raise ValueError(...)`, else the extracted name. -/
def extract_bucket (event : Val) : Except PyErr Val :=
  match bucketCandidate event with
  | .error e => .error e
  | .ok b =>
    if b.truthy then .ok b else .error (PyErr.valueError missingBucketMsg)

/-- First candidate that is present and truthy, used by the claim-modelled
shape list below. -/
def firstTruthy : List (Option Val) → Option Val
  | [] => Option.none
  | some v :: rest => if v.truthy then some v else firstTruthy rest
  | Option.none :: rest => firstTruthy rest

/-- Follows the words of the claims, not the source: the identifier the
three recognized shapes yield — detail.resourceId, then
Records[0].s3.bucket.name, then a top-level bucket or resourceId field — the
first non-empty one taken. -/
def claimShapeId (event : Val) : Option Val :=
  firstTruthy
    [(event.pathGet "detail").bind (fun d => d.pathGet "resourceId"),
     ((((event.pathGet "Records").bind (fun r => r.arrGet 0)).bind
        (fun r0 => r0.pathGet "s3")).bind
        (fun s3 => s3.pathGet "bucket")).bind (fun bk => bk.pathGet "name"),
     event.pathGet "bucket",
     event.pathGet "resourceId"]

end Harden

namespace Reporting

/-- Lines 13 to 18 of AdvLab6_LambdaCode.py: detail = event.get(detail, {});
evaluation_result = detail.get(newEvaluationResult, {}) or
detail.get(evaluationResult, {}); compliance_type =
evaluation_result.get(complianceType, UNKNOWN_STATUS).  The `or` takes the
second operand only when the first is falsy. -/
def complianceTypeOf (event : Val) : Except PyErr Val :=
  match event.getattr "detail" (Val.obj []) with
  | .error e => .error e
  | .ok detail =>
    match detail.getattr "newEvaluationResult" (Val.obj []) with
    | .error e => .error e
    | .ok ner =>
      if ner.truthy then ner.getattr "complianceType" (Val.str "UNKNOWN_STATUS")
      else
        match detail.getattr "evaluationResult" (Val.obj []) with
        | .error e => .error e
        | .ok er => er.getattr "complianceType" (Val.str "UNKNOWN_STATUS")

/-- Follows the words of claim C8, not the source: the compliance state is
detail.newEvaluationResult.complianceType when that field is present,
otherwise detail.evaluationResult.complianceType when present, otherwise the
UNKNOWN sentinel. -/
def specComplianceState (detail : Val) : Val :=
  match (detail.pathGet "newEvaluationResult").bind
      (fun v => v.pathGet "complianceType") with
  | some c => c
  | Option.none =>
    match (detail.pathGet "evaluationResult").bind
        (fun v => v.pathGet "complianceType") with
    | some c => c
    | Option.none => Val.str "UNKNOWN"

/-- The detail mapping of the C8 counterexample: newEvaluationResult is
present but lacks complianceType, while evaluationResult carries one. -/
def detailC8 : Val :=
  Val.obj [("newEvaluationResult", Val.obj [("other", Val.str "x")]),
           ("evaluationResult", Val.obj [("complianceType", Val.str "COMPLIANT")])]

/-- The C8 counterexample event. -/
def evC8 : Val := Val.obj [("detail", detailC8)]

/-- A detail mapping carrying only the old-format evaluationResult. -/
def detailOld : Val :=
  Val.obj [("evaluationResult", Val.obj [("complianceType", Val.str "NON_COMPLIANT")])]

/-- The old-format event. -/
def evOld : Val := Val.obj [("detail", detailOld)]

end Reporting

namespace SecOps

theorem revokeLoop_ok (env : Env) (g : Val) (rs : List Rule)
    (h : ∀ r, env.revokeSecurityGroupIngress g r = Except.ok ()) :
    revokeLoop env g rs =
      { completed := true, ops := rs.map (Op.revokeIngress g), logs := [] } := by
  induction rs with
  | nil => rfl
  | cons r rest ih => simp [revokeLoop, h r, ih]

theorem mem_plannedRevokes (r : Rule) (rules : List Rule) :
    r ∈ plannedRevokes rules ↔ r ∈ rules ∧ ruleOpen r = true := by
  simp only [plannedRevokes, List.mem_flatMap, List.mem_map, List.mem_filter,
    ruleOpen, List.any_eq_true]
  constructor
  · rintro ⟨a, ha, x, ⟨hx, hox⟩, rfl⟩
    exact ⟨ha, x, hx, hox⟩
  · rintro ⟨hr, x, hx, hox⟩
    exact ⟨r, hr, x, ⟨hx, hox⟩, rfl⟩

theorem plannedRevokes_nil (rules : List Rule)
    (h : ∀ r ∈ rules, ruleOpen r = false) : plannedRevokes rules = [] := by
  induction rules with
  | nil => rfl
  | cons r rest ih =>
    have hr : r.ipRanges.filter openRange = [] := by
      rw [List.filter_eq_nil_iff]
      intro ir hir
      have hro := h r (List.mem_cons_self r rest)
      rw [ruleOpen, List.any_eq_false] at hro
      simp [hro ir hir]
    have ih2 : plannedRevokes rest = [] :=
      ih (fun x hx => h x (List.mem_cons_of_mem r hx))
    rw [plannedRevokes, List.flatMap_cons, hr, List.map_nil, List.nil_append]
    exact ih2

theorem revokeLoop_no_sns (env : Env) (g : Val) (rs : List Rule) :
    ∀ o ∈ (revokeLoop env g rs).ops, o.isSns = false := by
  induction rs with
  | nil => intro o ho; simp [revokeLoop] at ho
  | cons r rest ih =>
    cases hr : env.revokeSecurityGroupIngress g r with
    | error e =>
      intro o ho
      simp [revokeLoop, hr] at ho
      subst ho; rfl
    | ok u =>
      intro o ho
      simp [revokeLoop, hr] at ho
      rcases ho with rfl | ho
      · rfl
      · exact ih o ho

theorem sg_no_sns (env : Env) (g : Val) :
    ∀ o ∈ (remediate_security_group env g).ops, o.isSns = false := by
  cases hd : env.describeSecurityGroups g with
  | error e =>
    intro o ho
    simp [remediate_security_group, hd] at ho
    subst ho; rfl
  | ok rules =>
    intro o ho
    simp [remediate_security_group, hd] at ho
    rcases ho with rfl | ho
    · rfl
    · exact revokeLoop_no_sns env g (plannedRevokes rules) o ho

theorem s3_no_sns (env : Env) (b : Val) :
    ∀ o ∈ (remediate_s3_bucket env b).ops, o.isSns = false := by
  intro o ho
  cases h1 : env.putBucketEncryption b with
  | error e =>
    simp [remediate_s3_bucket, h1] at ho
    subst ho; rfl
  | ok u =>
    cases h2 : env.putPublicAccessBlock b with
    | error e =>
      simp [remediate_s3_bucket, h1, h2] at ho
      rcases ho with rfl | rfl <;> rfl
    | ok u2 =>
      simp [remediate_s3_bucket, h1, h2] at ho
      rcases ho with rfl | rfl <;> rfl

theorem quar_no_sns (env : Env) (names : List String) (i : Val) :
    ∀ o ∈ (quarantine_ec2_instance env names i).ops, o.isSns = false := by
  intro o ho
  by_cases hc : quarantineName i ∈ names
  · simp [quarantine_ec2_instance, hc] at ho
    subst ho; rfl
  · cases hm : env.modifyInstanceAttribute i (quarantineName i) with
    | error e =>
      simp [quarantine_ec2_instance, hc, hm] at ho
      rcases ho with rfl | rfl <;> rfl
    | ok u =>
      cases ht : env.createTags i with
      | error e =>
        simp [quarantine_ec2_instance, hc, hm, ht] at ho
        rcases ho with rfl | rfl | rfl <;> rfl
      | ok u2 =>
        simp [quarantine_ec2_instance, hc, hm, ht] at ho
        rcases ho with rfl | rfl | rfl <;> rfl

theorem dispatch_no_sns (env : Env) (names : List String) (info : Info) :
    ∀ o ∈ (dispatch env names info).1.ops, o.isSns = false := by
  unfold dispatch
  cases h1 : info.complianceType.eqStr "NON_COMPLIANT" with
  | false => simp [h1]
  | true =>
    cases h2 : info.resourceType.eqStr "AWS::EC2::SecurityGroup" with
    | true =>
      simp only [h1, h2, if_true]
      exact sg_no_sns env info.resourceId
    | false =>
      cases h3 : info.resourceType.eqStr "AWS::S3::Bucket" with
      | true =>
        simp only [h1, h2, h3, if_true, Bool.false_eq_true, if_false]
        exact s3_no_sns env info.resourceId
      | false =>
        cases h4 : info.resourceType.eqStr "AWS::EC2::Instance" with
        | true =>
          simp only [h1, h2, h3, h4, if_true, Bool.false_eq_true, if_false]
          exact quar_no_sns env names info.resourceId
        | false => simp [h1, h2, h3, h4]

end SecOps

theorem hasItem_no_value (v : Val) (k m : String) :
    v.hasItem k ≠ Except.error (PyErr.valueError m) := by
  cases v <;> simp [Val.hasItem]

theorem index_no_value (v : Val) (k m : String) :
    v.index k ≠ Except.error (PyErr.valueError m) := by
  cases v with
  | obj fs => cases h : fs.lookup k <;> simp [Val.index, h]
  | null => simp [Val.index]
  | str s => simp [Val.index]
  | arr xs => simp [Val.index]

theorem indexNat_no_value (v : Val) (i : Nat) (m : String) :
    v.indexNat i ≠ Except.error (PyErr.valueError m) := by
  cases v with
  | arr xs => cases h : xs[i]? <;> simp [Val.indexNat, h]
  | obj fs => simp [Val.indexNat]
  | str s => cases h : s.data[i]? <;> simp [Val.indexNat, String.toList, h]
  | null => simp [Val.indexNat]

theorem pyLen_no_value (v : Val) (m : String) :
    v.pyLen ≠ Except.error (PyErr.valueError m) := by
  cases v <;> simp [Val.pyLen]

theorem perr_not_value {α β : Type} {x : Except PyErr α} {e : PyErr} {m : String}
    (hx : x = Except.error e) (hnv : x ≠ Except.error (PyErr.valueError m)) :
    (Except.error e : Except PyErr β) ≠ Except.error (PyErr.valueError m) := by
  intro h
  rw [Except.error.injEq] at h
  exact hnv (by rw [hx, h])

namespace Harden

theorem shapeManual_no_value (event : Val) (m : String) :
    shapeManual event ≠ Except.error (PyErr.valueError m) := by
  cases h1 : event.hasItem "bucket" with
  | error e =>
    simp only [shapeManual, h1]
    exact perr_not_value h1 (hasItem_no_value event "bucket" m)
  | ok b =>
    cases b with
    | false => simp [shapeManual, h1]
    | true =>
      simp only [shapeManual, h1]
      exact index_no_value event "bucket" m

theorem shapeRecords_no_value (event : Val) (m : String) :
    shapeRecords event ≠ Except.error (PyErr.valueError m) := by
  cases h1 : event.hasItem "Records" with
  | error e =>
    simp only [shapeRecords, h1]
    exact perr_not_value h1 (hasItem_no_value event "Records" m)
  | ok b =>
    cases b with
    | false =>
      simp only [shapeRecords, h1]
      exact shapeManual_no_value event m
    | true =>
      cases h2 : event.index "Records" with
      | error e =>
        simp only [shapeRecords, h1, h2]
        exact perr_not_value h2 (index_no_value event "Records" m)
      | ok recs =>
        cases h3 : recs.pyLen with
        | error e =>
          simp only [shapeRecords, h1, h2, h3]
          exact perr_not_value h3 (pyLen_no_value recs m)
        | ok n =>
          simp only [shapeRecords, h1, h2, h3]
          by_cases hn : n > 0
          · rw [if_pos hn]
            cases h4 : recs.indexNat 0 with
            | error e =>
              simp only [h4]
              exact perr_not_value h4 (indexNat_no_value recs 0 m)
            | ok r0 =>
              cases h5 : r0.index "s3" with
              | error e =>
                simp only [h4, h5]
                exact perr_not_value h5 (index_no_value r0 "s3" m)
              | ok s3v =>
                cases h6 : s3v.index "bucket" with
                | error e =>
                  simp only [h4, h5, h6]
                  exact perr_not_value h6 (index_no_value s3v "bucket" m)
                | ok bk =>
                  simp only [h4, h5, h6]
                  exact index_no_value bk "name" m
          · rw [if_neg hn]
            exact shapeManual_no_value event m

theorem bucketCandidate_no_value (event : Val) (m : String) :
    bucketCandidate event ≠ Except.error (PyErr.valueError m) := by
  cases h1 : event.hasItem "detail" with
  | error e =>
    simp only [bucketCandidate, h1]
    exact perr_not_value h1 (hasItem_no_value event "detail" m)
  | ok b =>
    cases b with
    | false =>
      simp only [bucketCandidate, h1]
      exact shapeRecords_no_value event m
    | true =>
      cases h2 : event.index "detail" with
      | error e =>
        simp only [bucketCandidate, h1, h2]
        exact perr_not_value h2 (index_no_value event "detail" m)
      | ok d =>
        cases h3 : d.hasItem "resourceId" with
        | error e =>
          simp only [bucketCandidate, h1, h2, h3]
          exact perr_not_value h3 (hasItem_no_value d "resourceId" m)
        | ok b2 =>
          cases b2 with
          | false =>
            simp only [bucketCandidate, h1, h2, h3]
            exact shapeRecords_no_value event m
          | true =>
            simp only [bucketCandidate, h1, h2, h3]
            exact index_no_value d "resourceId" m

theorem extract_ok_truthy (e v : Val) (h : extract_bucket e = Except.ok v) :
    v.truthy = true := by
  cases hbc : bucketCandidate e with
  | error er =>
    have he : extract_bucket e = Except.error er := by
      unfold extract_bucket; rw [hbc]
    rw [he] at h
    cases h
  | ok b =>
    have he : extract_bucket e =
        if b.truthy = true then Except.ok b
        else Except.error (PyErr.valueError missingBucketMsg) := by
      unfold extract_bucket; rw [hbc]
    rw [he] at h
    cases hb : b.truthy with
    | false => rw [hb] at h; simp at h
    | true =>
      rw [hb] at h
      simp at h
      rw [← h]
      exact hb

theorem extract_value_only (e : Val) (m : String)
    (h : extract_bucket e = Except.error (PyErr.valueError m)) :
    m = missingBucketMsg := by
  cases hbc : bucketCandidate e with
  | error er =>
    have he : extract_bucket e = Except.error er := by
      unfold extract_bucket; rw [hbc]
    rw [he] at h
    rw [Except.error.injEq] at h
    exact absurd (by rw [hbc, h]) (bucketCandidate_no_value e m)
  | ok b =>
    have he : extract_bucket e =
        if b.truthy = true then Except.ok b
        else Except.error (PyErr.valueError missingBucketMsg) := by
      unfold extract_bucket; rw [hbc]
    rw [he] at h
    cases hb : b.truthy with
    | true => rw [hb] at h; simp at h
    | false =>
      rw [hb] at h
      simp at h
      exact h.symm

end Harden

namespace SecOps

theorem revokedOf_map (g : Val) (rs : List Rule) :
    revokedOf (rs.map (Op.revokeIngress g)) = rs := by
  induction rs with
  | nil => rfl
  | cons r rest ih =>
    simp only [List.map_cons, revokedOf, List.filterMap_cons] at ih ⊢
    simp [ih]

/-- C1: for every event whose extracted compliance state is anything other
than the string NON_COMPLIANT, the handler issues zero
resource-control-plane operations (so no remediation strategy is invoked),
completes normally with status 200, and leaves the control-plane state
untouched.  The Skipped outcome of the claim is the no-remediation path of
the source, whose return value is the normal 200 response. -/
theorem execute_skips_when_not_noncompliant (env : Env) (names : List String)
    (event : Val) (info : Info)
    (hx : extractInfo event = Except.ok info)
    (hc : info.complianceType.eqStr "NON_COMPLIANT" = false) :
    (lambda_handler env names event).ops.filter Op.isResource = [] ∧
    (lambda_handler env names event).result.statusCode = 200 ∧
    (lambda_handler env names event).groupNames = names := by
  have hd : dispatch env names info =
      ({ completed := true, ops := [], logs := [] }, names) := by
    unfold dispatch
    rw [hc]
    simp
  have hrun : lambda_handler env names event =
      { result := { statusCode := 200, body := jsonDumps (Val.str ("Processed " ++ info.resourceType.pyStr ++ " remediation")) },
        ops := (send_notification env).ops,
        logs := (send_notification env).logs,
        groupNames := names } := by
    simp [lambda_handler, hx, hd]
  rw [hrun]
  refine ⟨?_, rfl, rfl⟩
  cases hs : env.snsPublish with
  | error e => simp [send_notification, hs, Op.isResource]
  | ok u => simp [send_notification, hs, Op.isResource]

/-- Witness for C1: a compliant (state-less) event against a healthy control
plane triggers no resource-control-plane call. -/
theorem execute_skips_when_not_noncompliant_witness :
    (lambda_handler envOk [] (Val.obj [])).ops.filter Op.isResource = [] :=
  (execute_skips_when_not_noncompliant envOk [] (Val.obj [])
    { resourceType := Val.null, resourceId := Val.null, complianceType := Val.null }
    rfl rfl).1

/-- C2: with the control plane answering (describe succeeds, revokes
succeed), the security-group strategy revokes exactly the rules carrying the
unrestricted CIDR — every open rule is revoked, every other rule is left
untouched; a group with no open rules is a describe-only no-op whose try
block completes; and on the concrete three-rule group of the claim exactly
the two open rules are revoked, in order. -/
theorem security_group_revokes_exactly_open_rules :
    (∀ (env : Env) (g : Val) (rules : List Rule),
        env.describeSecurityGroups g = Except.ok rules →
        (∀ r, env.revokeSecurityGroupIngress g r = Except.ok ()) →
        (remediate_security_group env g).completed = true ∧
        revokedOf (remediate_security_group env g).ops = plannedRevokes rules ∧
        (∀ r ∈ rules,
          (ruleOpen r = true ↔ r ∈ revokedOf (remediate_security_group env g).ops)))
  ∧ (∀ (env : Env) (g : Val) (rules : List Rule),
        env.describeSecurityGroups g = Except.ok rules →
        (∀ r ∈ rules, ruleOpen r = false) →
        remediate_security_group env g =
          { completed := true, ops := [Op.describeSecurityGroups g], logs := [] })
  ∧ remediate_security_group envC2 (Val.str "sg-1") =
      { completed := true,
        ops := [Op.describeSecurityGroups (Val.str "sg-1"),
                Op.revokeIngress (Val.str "sg-1") ruleSSH,
                Op.revokeIngress (Val.str "sg-1") ruleHTTPS],
        logs := [] } := by
  refine ⟨?_, ?_, rfl⟩
  · intro env g rules hdesc hrev
    have hsg : remediate_security_group env g =
        { completed := true,
          ops := Op.describeSecurityGroups g ::
            (plannedRevokes rules).map (Op.revokeIngress g),
          logs := [] } := by
      simp [remediate_security_group, hdesc, revokeLoop_ok env g _ hrev]
    have hcom : (remediate_security_group env g).completed = true := by rw [hsg]
    have hops : revokedOf (remediate_security_group env g).ops =
        plannedRevokes rules := by
      rw [hsg]
      have h1 : revokedOf (Op.describeSecurityGroups g ::
          (plannedRevokes rules).map (Op.revokeIngress g)) =
          revokedOf ((plannedRevokes rules).map (Op.revokeIngress g)) := by
        simp [revokedOf, List.filterMap_cons]
      rw [h1, revokedOf_map]
    refine ⟨hcom, hops, ?_⟩
    intro r hr
    rw [hops]
    exact ⟨fun hopen => (mem_plannedRevokes r rules).mpr ⟨hr, hopen⟩,
           fun hmem => ((mem_plannedRevokes r rules).mp hmem).2⟩
  · intro env g rules hdesc hnone
    simp [remediate_security_group, hdesc, plannedRevokes_nil rules hnone, revokeLoop]

/-- Witness for C2: the hypotheses hold on the concrete three-rule group. -/
theorem security_group_revokes_exactly_open_rules_witness :
    (remediate_security_group envC2 (Val.str "sg-1")).completed = true :=
  (security_group_revokes_exactly_open_rules.1 envC2 (Val.str "sg-1")
    [ruleSSH, rulePriv, ruleHTTPS] rfl (fun _ => rfl)).1

/-- C3 counterexample: when put_bucket_encryption is denied,
put_public_access_block is never attempted — the trace of the strategy stops
at the failed encryption call, refuting the claim that both corrective
actions are attempted and that the outcome records one applied action. -/
theorem s3_abort_counterexample :
    remediate_s3_bucket envC3 (Val.str "b1") =
      { completed := false, ops := [Op.putBucketEncryption (Val.str "b1")],
        logs := ["Failed to remediate S3 bucket b1: AccessDenied"] } ∧
    Op.putPublicAccessBlock (Val.str "b1") ∉
      (remediate_s3_bucket envC3 (Val.str "b1")).ops := by
  refine ⟨rfl, ?_⟩
  intro hmem
  rw [show (remediate_s3_bucket envC3 (Val.str "b1")).ops =
      [Op.putBucketEncryption (Val.str "b1")] from rfl] at hmem
  simp at hmem

/-- C3 amended: if put_bucket_encryption fails, the single try block of
remediate_s3_bucket aborts — put_public_access_block is not attempted, the
one client error is only logged, and no aggregated partial outcome exists. -/
theorem s3_encryption_failure_aborts (env : Env) (b : Val) (e : String)
    (h : env.putBucketEncryption b = Except.error e) :
    remediate_s3_bucket env b =
      { completed := false, ops := [Op.putBucketEncryption b],
        logs := ["Failed to remediate S3 bucket " ++ b.pyStr ++ ": " ++ e] } := by
  unfold remediate_s3_bucket
  rw [h]

/-- Witness for C3: the abort happens on the concrete denied bucket. -/
theorem s3_encryption_failure_aborts_witness :
    remediate_s3_bucket envC3 (Val.str "b1") =
      { completed := false, ops := [Op.putBucketEncryption (Val.str "b1")],
        logs := ["Failed to remediate S3 bucket b1: AccessDenied"] } :=
  s3_encryption_failure_aborts envC3 (Val.str "b1") "AccessDenied" rfl

/-- C4 counterexample: a NON_COMPLIANT security-group event whose describe
call is denied still yields the 200 result, the failure text exists only in
the log, and the returned body does not contain it — the top-level result
reflects no sub-action failure and carries no error list. -/
theorem result_hides_failures_counterexample :
    (lambda_handler envC4 [] evSG).result.statusCode = 200 ∧
    (lambda_handler envC4 [] evSG).logs =
      ["Failed to remediate security group sg-1: AccessDenied"] ∧
    ¬ ("Failed to remediate security group sg-1: AccessDenied".toList <:+:
        (lambda_handler envC4 [] evSG).result.body.toList) := by
  refine ⟨rfl, rfl, ?_⟩
  intro hinf
  exact absurd hinf.length_le (by decide)

/-- C4 amended: whenever extraction succeeds the handler returns status 200
with the fixed Processed body, independent of every strategy failure;
sub-action errors are only logged, never part of the returned result. -/
theorem handler_result_independent_of_failures (env : Env) (names : List String)
    (event : Val) (info : Info)
    (hx : extractInfo event = Except.ok info) :
    (lambda_handler env names event).result =
      { statusCode := 200,
        body := jsonDumps (Val.str
          ("Processed " ++ info.resourceType.pyStr ++ " remediation")) } := by
  simp [lambda_handler, hx]

/-- Witness for C4: the concrete denied run returns the 200 result. -/
theorem handler_result_independent_of_failures_witness :
    (lambda_handler envC4 [] evSG).result =
      { statusCode := 200,
        body := jsonDumps (Val.str ("Processed " ++
          (Val.str "AWS::EC2::SecurityGroup").pyStr ++ " remediation")) } :=
  handler_result_independent_of_failures envC4 [] evSG
    { resourceType := Val.str "AWS::EC2::SecurityGroup",
      resourceId := Val.str "sg-1",
      complianceType := Val.str "NON_COMPLIANT" } rfl

/-- C5 counterexample: quarantining the same instance twice leaves exactly
one boundary object, but the second invocation does not reuse it: its create
call is rejected as a duplicate, no attach or tag call is issued, and its try
block does not complete — refuting detection, reuse and reported success. -/
theorem quarantine_no_reuse_counterexample :
    (quarantine_ec2_instance envOk
      (quarantine_ec2_instance envOk [] (Val.str "i-0abc")).groupNames
      (Val.str "i-0abc")).completed = false ∧
    (quarantine_ec2_instance envOk
      (quarantine_ec2_instance envOk [] (Val.str "i-0abc")).groupNames
      (Val.str "i-0abc")).ops = [Op.createSecurityGroup "quarantine-i-0abc"] ∧
    ((quarantine_ec2_instance envOk
      (quarantine_ec2_instance envOk [] (Val.str "i-0abc")).groupNames
      (Val.str "i-0abc")).groupNames.count "quarantine-i-0abc") = 1 :=
  ⟨rfl, rfl, rfl⟩

/-- C5 amended: on a fresh instance the first quarantine invocation creates
the boundary named quarantine-{id}; a second invocation finds the name taken,
its create call fails (InvalidGroup.Duplicate), it issues no further calls,
reuses nothing, and the set of boundary objects is unchanged — exactly one
boundary exists, but idempotent success is not achieved. -/
theorem quarantine_second_call_fails_no_duplicate (env : Env)
    (names : List String) (i : Val) (h : quarantineName i ∉ names) :
    (quarantine_ec2_instance env names i).groupNames =
      names ++ [quarantineName i] ∧
    quarantine_ec2_instance env
        (quarantine_ec2_instance env names i).groupNames i =
      { completed := false, ops := [Op.createSecurityGroup (quarantineName i)],
        logs := ["Failed to quarantine EC2 instance " ++ i.pyStr ++
                 ": InvalidGroup.Duplicate"],
        groupNames := names ++ [quarantineName i] } := by
  have h1 : (quarantine_ec2_instance env names i).groupNames =
      names ++ [quarantineName i] := by
    cases hm : env.modifyInstanceAttribute i (quarantineName i) with
    | error e => simp [quarantine_ec2_instance, h, hm]
    | ok u =>
      cases ht : env.createTags i with
      | error e => simp [quarantine_ec2_instance, h, hm, ht]
      | ok u2 => simp [quarantine_ec2_instance, h, hm, ht]
  refine ⟨h1, ?_⟩
  rw [h1]
  have h2 : quarantineName i ∈ names ++ [quarantineName i] := by simp
  simp [quarantine_ec2_instance, h2]

/-- Witness for C5: two runs on the fresh instance i-0abc. -/
theorem quarantine_second_call_fails_no_duplicate_witness :
    quarantine_ec2_instance envOk
        (quarantine_ec2_instance envOk [] (Val.str "i-0abc")).groupNames
        (Val.str "i-0abc") =
      { completed := false, ops := [Op.createSecurityGroup "quarantine-i-0abc"],
        logs := ["Failed to quarantine EC2 instance i-0abc: InvalidGroup.Duplicate"],
        groupNames := ["quarantine-i-0abc"] } :=
  (quarantine_second_call_fails_no_duplicate envOk [] (Val.str "i-0abc")
    (List.not_mem_nil _)).2

/-- C10: whenever extraction succeeds — every compliance state and resource
kind included — the handler issues exactly one publish call on the alerting
channel. -/
theorem exactly_one_notification (env : Env) (names : List String)
    (event : Val) (info : Info)
    (hx : extractInfo event = Except.ok info) :
    ((lambda_handler env names event).ops.filter Op.isSns).length = 1 := by
  have hrun : (lambda_handler env names event).ops =
      (dispatch env names info).1.ops ++ (send_notification env).ops := by
    simp [lambda_handler, hx]
  rw [hrun, List.filter_append]
  have h1 : (dispatch env names info).1.ops.filter Op.isSns = [] := by
    rw [List.filter_eq_nil_iff]
    intro o ho
    simp [dispatch_no_sns env names info o ho]
  have h2 : (send_notification env).ops.filter Op.isSns = [Op.snsPublish] := by
    cases hs : env.snsPublish with
    | error e => simp [send_notification, hs, Op.isSns]
    | ok u => simp [send_notification, hs, Op.isSns]
  rw [h1, h2]
  rfl

/-- Witness for C10: one publish on a compliant empty event. -/
theorem exactly_one_notification_witness :
    ((lambda_handler envOk [] (Val.obj [])).ops.filter Op.isSns).length = 1 :=
  exactly_one_notification envOk [] (Val.obj [])
    { resourceType := Val.null, resourceId := Val.null, complianceType := Val.null }
    rfl

end SecOps

namespace Harden

/-- C6 counterexample: an event carrying only a top-level resourceId field.
The claim-modelled shape list yields the non-empty identifier foo, so the
claim predicts success, but the source recognizes only a top-level bucket
key and raises its missing-identifier ValueError. -/
theorem missing_id_counterexample :
    claimShapeId (Val.obj [("resourceId", Val.str "foo")]) = some (Val.str "foo") ∧
    extract_bucket (Val.obj [("resourceId", Val.str "foo")]) =
      Except.error (PyErr.valueError missingBucketMsg) := ⟨rfl, rfl⟩

/-- C6 amended: normalization fails with the missing-identifier ValueError
exactly when the guard-selected shape yields no truthy identifier: a mapping
with none of the keys detail, Records, bucket always fails that way; a
successful extraction always returns a truthy identifier (never a sentinel);
and a top-level resourceId field is not recognized as a shape. -/
theorem missing_id_exactly_first_shape :
    (∀ (fs : List (String × Val)),
        fs.any (fun p => p.1 == "detail") = false →
        fs.any (fun p => p.1 == "Records") = false →
        fs.any (fun p => p.1 == "bucket") = false →
        extract_bucket (Val.obj fs) =
          Except.error (PyErr.valueError missingBucketMsg))
  ∧ (∀ (e v : Val), extract_bucket e = Except.ok v → v.truthy = true)
  ∧ (∀ (r : String),
        extract_bucket (Val.obj [("resourceId", Val.str r)]) =
          Except.error (PyErr.valueError missingBucketMsg)) := by
  refine ⟨?_, extract_ok_truthy, ?_⟩
  · intro fs h1 h2 h3
    simp [extract_bucket, bucketCandidate, shapeRecords, shapeManual,
      Val.hasItem, h1, h2, h3, Val.truthy]
  · intro r
    rfl

/-- Witness for C6: a mapping without any recognized key fails with the
missing-identifier error. -/
theorem missing_id_exactly_first_shape_witness :
    extract_bucket (Val.obj [("x", Val.str "y")]) =
      Except.error (PyErr.valueError missingBucketMsg) :=
  missing_id_exactly_first_shape.1 [("x", Val.str "y")] rfl rfl rfl

/-- C7 counterexample: detail is present with an empty resourceId while a
top-level bucket carries b.  The first non-empty identifier of the claim is
b, but the source takes the first present shape (the elif chain), finds the
empty string and raises — later shapes are never consulted. -/
theorem shape_masking_counterexample :
    claimShapeId (Val.obj [("detail", Val.obj [("resourceId", Val.str "")]),
        ("bucket", Val.str "b")]) = some (Val.str "b") ∧
    extract_bucket (Val.obj [("detail", Val.obj [("resourceId", Val.str "")]),
        ("bucket", Val.str "b")]) =
      Except.error (PyErr.valueError missingBucketMsg) := ⟨rfl, rfl⟩

/-- C7 amended: the three recognized shapes carrying the same non-empty
identifier all normalize to that identifier, the shapes being tried in the
fixed order of the source; but it is the first shape whose guard matches
that is taken — an empty identifier from it fails the event instead of
falling through to a later shape. -/
theorem shapes_agree_in_order :
    (∀ r : String, r ≠ "" →
        extract_bucket (Val.obj [("detail", Val.obj [("resourceId", Val.str r)])]) =
          Except.ok (Val.str r) ∧
        extract_bucket (Val.obj [("Records", Val.arr [Val.obj [("s3",
          Val.obj [("bucket", Val.obj [("name", Val.str r)])])]])]) =
          Except.ok (Val.str r) ∧
        extract_bucket (Val.obj [("bucket", Val.str r)]) = Except.ok (Val.str r))
  ∧ (∀ r : String,
        extract_bucket (Val.obj [("detail", Val.obj [("resourceId", Val.str "")]),
          ("bucket", Val.str r)]) =
          Except.error (PyErr.valueError missingBucketMsg)) := by
  constructor
  · intro r hr
    have hb : (r == "") = false := beq_eq_false_iff_ne.mpr hr
    refine ⟨?_, ?_, ?_⟩
    · have h1 : bucketCandidate
          (Val.obj [("detail", Val.obj [("resourceId", Val.str r)])]) =
          Except.ok (Val.str r) := rfl
      unfold extract_bucket
      rw [h1]
      simp [Val.truthy, hb]
    · have h1 : bucketCandidate (Val.obj [("Records", Val.arr [Val.obj [("s3",
          Val.obj [("bucket", Val.obj [("name", Val.str r)])])]])]) =
          Except.ok (Val.str r) := rfl
      unfold extract_bucket
      rw [h1]
      simp [Val.truthy, hb]
    · have h1 : bucketCandidate (Val.obj [("bucket", Val.str r)]) =
          Except.ok (Val.str r) := rfl
      unfold extract_bucket
      rw [h1]
      simp [Val.truthy, hb]
  · intro r
    rfl

/-- Witness for C7: the manual shape with a non-empty name extracts it. -/
theorem shapes_agree_in_order_witness :
    extract_bucket (Val.obj [("bucket", Val.str "my-bucket")]) =
      Except.ok (Val.str "my-bucket") :=
  (shapes_agree_in_order.1 "my-bucket" (by decide)).2.2

/-- C9 counterexample: a non-empty Records list whose first element lacks the
s3 path raises KeyError s3, which is not the missing-identifier ValueError —
normalization is not total on such mappings. -/
theorem records_keyerror_counterexample :
    extract_bucket (Val.obj [("Records", Val.arr [Val.obj []])]) =
      Except.error (PyErr.keyError "s3") ∧
    PyErr.keyError "s3" ≠ PyErr.valueError missingBucketMsg :=
  ⟨rfl, by decide⟩

/-- C9 amended: normalization is not total: the Records path can raise a
lookup KeyError, as on the concrete mapping below; the missing-identifier
ValueError itself is raised only with its fixed message, so every other
failure of the extraction is a lookup or type error, not a
MissingResourceIdError. -/
theorem extract_totality_amended :
    extract_bucket (Val.obj [("Records", Val.arr [Val.obj []])]) =
      Except.error (PyErr.keyError "s3") ∧
    (∀ (e : Val) (m : String),
        extract_bucket e = Except.error (PyErr.valueError m) →
        m = missingBucketMsg) :=
  ⟨rfl, extract_value_only⟩

/-- Witness for C9: the ValueError raised on the empty mapping carries the
fixed missing-identifier message. -/
theorem extract_totality_amended_witness :
    extract_bucket (Val.obj [("Records", Val.arr [Val.obj []])]) =
      Except.error (PyErr.keyError "s3") ∧
    missingBucketMsg = missingBucketMsg :=
  ⟨extract_totality_amended.1,
   extract_totality_amended.2 (Val.obj []) missingBucketMsg rfl⟩

end Harden

namespace Reporting

/-- C8 counterexample: a detail whose newEvaluationResult is present but
lacks complianceType while evaluationResult carries COMPLIANT.  The claim
predicts COMPLIANT; the source's `or` keeps the truthy newEvaluationResult
and yields the sentinel instead.  Moreover LambdaFunction1 extracts None for
an old-format event, with no fallback at all. -/
theorem fallback_counterexample :
    complianceTypeOf evC8 = Except.ok (Val.str "UNKNOWN_STATUS") ∧
    specComplianceState detailC8 = Val.str "COMPLIANT" ∧
    complianceTypeOf evC8 ≠ Except.ok (specComplianceState detailC8) ∧
    SecOps.extractInfo evOld =
      Except.ok { resourceType := Val.null, resourceId := Val.null,
                  complianceType := Val.null } ∧
    specComplianceState detailOld = Val.str "NON_COMPLIANT" := by
  refine ⟨rfl, rfl, ?_, rfl, rfl⟩
  intro h
  rw [show complianceTypeOf evC8 = Except.ok (Val.str "UNKNOWN_STATUS") from rfl,
      show specComplianceState detailC8 = Val.str "COMPLIANT" from rfl] at h
  simp at h

/-- C8 amended: in AdvLab6 the state is the complianceType of the first
truthy of newEvaluationResult and evaluationResult, defaulting to the
UNKNOWN_STATUS sentinel when that mapping lacks the field — a present but
field-less newEvaluationResult masks the fallback; in LambdaFunction1 only
newEvaluationResult.complianceType is read, with None as the sentinel and no
fallback to evaluationResult. -/
theorem compliance_state_fallback_amended :
    (∀ (dfs nfs : List (String × Val)) (c : Val),
        dfs.lookup "newEvaluationResult" = some (Val.obj nfs) → nfs ≠ [] →
        nfs.lookup "complianceType" = some c →
        complianceTypeOf (Val.obj [("detail", Val.obj dfs)]) = Except.ok c)
  ∧ (∀ (dfs nfs : List (String × Val)),
        dfs.lookup "newEvaluationResult" = some (Val.obj nfs) → nfs ≠ [] →
        nfs.lookup "complianceType" = Option.none →
        complianceTypeOf (Val.obj [("detail", Val.obj dfs)]) =
          Except.ok (Val.str "UNKNOWN_STATUS"))
  ∧ (∀ (dfs efs : List (String × Val)) (c : Val),
        dfs.lookup "newEvaluationResult" = Option.none →
        dfs.lookup "evaluationResult" = some (Val.obj efs) →
        efs.lookup "complianceType" = some c →
        complianceTypeOf (Val.obj [("detail", Val.obj dfs)]) = Except.ok c)
  ∧ (∀ (dfs : List (String × Val)),
        dfs.lookup "newEvaluationResult" = Option.none →
        dfs.lookup "configurationItem" = Option.none →
        SecOps.extractInfo (Val.obj [("detail", Val.obj dfs)]) =
          Except.ok { resourceType := Val.null, resourceId := Val.null,
                      complianceType := Val.null }) := by
  refine ⟨?_, ?_, ?_, ?_⟩
  · intro dfs nfs c h1 h2 h3
    have hne : (Val.obj nfs).truthy = true := by
      cases nfs with
      | nil => exact absurd rfl h2
      | cons a l => rfl
    simp [complianceTypeOf, Val.getattr, List.lookup, h1, hne, h3]
  · intro dfs nfs h1 h2 h3
    have hne : (Val.obj nfs).truthy = true := by
      cases nfs with
      | nil => exact absurd rfl h2
      | cons a l => rfl
    simp [complianceTypeOf, Val.getattr, List.lookup, h1, hne, h3]
  · intro dfs efs c h1 h2 h3
    simp [complianceTypeOf, Val.getattr, List.lookup, h1, h2, h3, Val.truthy]
  · intro dfs h1 h2
    simp [SecOps.extractInfo, Val.getattr, List.lookup, h1, h2]

/-- Witness for C8: the new-format field is read when present. -/
theorem compliance_state_fallback_amended_witness :
    complianceTypeOf (Val.obj [("detail", Val.obj [("newEvaluationResult",
        Val.obj [("complianceType", Val.str "COMPLIANT")])])]) =
      Except.ok (Val.str "COMPLIANT") :=
  compliance_state_fallback_amended.1
    [("newEvaluationResult", Val.obj [("complianceType", Val.str "COMPLIANT")])]
    [("complianceType", Val.str "COMPLIANT")] (Val.str "COMPLIANT")
    rfl (List.cons_ne_nil _ _) rfl

end Reporting
